import Mathlib

/-!
Verification of the oneepay client SDK (src/src/index.ts).

The development shallowly embeds the `OneEpay` class: hashing
(Node's crypto sha1/base64 pipeline) is implemented over byte lists,
the declarative validation rulesets are embedded as data, and the two
transaction operations are modelled as pure functions from a client
state and the transport's responses to a final state, the list of
network requests issued, and the operation's outcome.
-/

set_option maxRecDepth 10000

/-! ## SHA-1 and base64

`crypto.createHash('sha1').update(data).digest('base64')` from the
source is modelled by `digest` below: UTF-8 encode, SHA-1 (RFC 3174)
over the byte list, base64-encode the 20-byte digest.  Machine words
are `Nat` with explicit reduction modulo `2 ^ 32`. -/

def w32 (n : Nat) : Nat := n % 2 ^ 32

/-- Left rotation of a 32-bit word (correct for `n < 2 ^ 32`). -/
def rotl (k n : Nat) : Nat := (n * 2 ^ k + n / 2 ^ (32 - k)) % 2 ^ 32

def sha1F (t b c d : Nat) : Nat :=
  if t < 20 then (b &&& c) ||| ((b ^^^ (2 ^ 32 - 1)) &&& d)
  else if t < 40 then b ^^^ c ^^^ d
  else if t < 60 then (b &&& c) ||| (b &&& d) ||| (c &&& d)
  else b ^^^ c ^^^ d

def sha1K (t : Nat) : Nat :=
  if t < 20 then 0x5A827999
  else if t < 40 then 0x6ED9EBA1
  else if t < 60 then 0x8F1BBCDC
  else 0xCA62C1D6

/-- Big-endian 8-byte encoding of a number (the length field of SHA-1 padding). -/
def be64 (n : Nat) : List Nat := (List.range 8).map (fun i => n / 2 ^ (8 * (7 - i)) % 256)

/-- SHA-1 padding: a `0x80` byte, zeros up to 56 mod 64, then the bit length. -/
def padMsg (msg : List Nat) : List Nat :=
  msg ++ 128 :: List.replicate ((119 - msg.length % 64) % 64) 0 ++ be64 (8 * msg.length)

/-- Split into 64-byte blocks; the first argument is fuel (any bound on
the number of blocks, so that the recursion is structural and the
function evaluates by kernel reduction). -/
def chunksGo : Nat → List Nat → List (List Nat)
  | 0, _ => []
  | fuel + 1, l => if l = [] then [] else l.take 64 :: chunksGo fuel (l.drop 64)

def chunks64 (l : List Nat) : List (List Nat) := chunksGo l.length l

def wordsOfBlock (b : List Nat) : List Nat :=
  (List.range 16).map (fun i =>
    b.getD (4 * i) 0 * 2 ^ 24 + b.getD (4 * i + 1) 0 * 2 ^ 16 +
      b.getD (4 * i + 2) 0 * 2 ^ 8 + b.getD (4 * i + 3) 0)

/-- Extend the 16 words of a block to the 80-word message schedule. -/
def extendW (acc : List Nat) : Nat → List Nat
  | 0 => acc
  | n + 1 =>
    extendW (acc ++ [rotl 1 (acc.getD (acc.length - 3) 0 ^^^ acc.getD (acc.length - 8) 0 ^^^
      acc.getD (acc.length - 14) 0 ^^^ acc.getD (acc.length - 16) 0)]) n

structure Sha1H where
  h0 : Nat
  h1 : Nat
  h2 : Nat
  h3 : Nat
  h4 : Nat

def sha1Block (hs : Sha1H) (block : List Nat) : Sha1H :=
  let ws := extendW (wordsOfBlock block) 64
  let st := (List.range 80).foldl
    (fun st t =>
      let (a, b, c, d, e) := st
      (w32 (rotl 5 a + sha1F t b c d + e + sha1K t + ws.getD t 0), a, rotl 30 b, c, d))
    (hs.h0, hs.h1, hs.h2, hs.h3, hs.h4)
  let (a, b, c, d, e) := st
  ⟨w32 (hs.h0 + a), w32 (hs.h1 + b), w32 (hs.h2 + c), w32 (hs.h3 + d), w32 (hs.h4 + e)⟩

def sha1Init : Sha1H := ⟨0x67452301, 0xEFCDAB89, 0x98BADCFE, 0x10325476, 0xC3D2E1F0⟩

/-- The 160-bit SHA-1 digest of a byte list, packed as one `Nat`. -/
def sha1Nat (msg : List Nat) : Nat :=
  let hs := (chunks64 (padMsg msg)).foldl sha1Block sha1Init
  w32 hs.h0 * 2 ^ 128 + w32 hs.h1 * 2 ^ 96 + w32 hs.h2 * 2 ^ 64 + w32 hs.h3 * 2 ^ 32 + w32 hs.h4

/-- The 20 digest bytes, big-endian. -/
def bytesOfNat160 (n : Nat) : List Nat :=
  (List.range 20).map (fun i => n / 2 ^ (8 * (19 - i)) % 256)

def base64Alphabet : List Char :=
  "ABCDEFGHIJKLMNOPQRSTUVWXYZabcdefghijklmnopqrstuvwxyz0123456789+/".data

def b64c (n : Nat) : Char := base64Alphabet.getD n 'A'

def base64Chars : List Nat → List Char
  | [] => []
  | [a] => [b64c (a / 4), b64c (a % 4 * 16), '=', '=']
  | [a, b] => [b64c (a / 4), b64c (a % 4 * 16 + b / 16), b64c (b % 16 * 4), '=']
  | a :: b :: c :: rest =>
    b64c (a / 4) :: b64c (a % 4 * 16 + b / 16) :: b64c (b % 16 * 4 + c / 64) :: b64c (c % 64) ::
      base64Chars rest

def base64Encode (bytes : List Nat) : String := String.mk (base64Chars bytes)

/-- UTF-8 encoding of one code point, as Node encodes JS strings. -/
def utf8Char (c : Char) : List Nat :=
  let n := c.toNat
  if n < 128 then [n]
  else if n < 2048 then [192 + n / 64, 128 + n % 64]
  else if n < 65536 then [224 + n / 4096, 128 + n / 64 % 64, 128 + n % 64]
  else [240 + n / 262144, 128 + n / 4096 % 64, 128 + n / 64 % 64, 128 + n % 64]

def utf8Bytes (s : String) : List Nat := (s.data.map utf8Char).flatten

/-- `crypto.createHash('sha1').update(s).digest('base64')`. -/
def digest (s : String) : String := base64Encode (bytesOfNat160 (sha1Nat (utf8Bytes s)))

/-! ## Signature (`OneEpay.makeSignature`, src lines 140-143)

`const data = UID + totalAmount + totalQuantity + ip + this.clientId + this.clientSecret;`
JS `+` on string and number coerces the number with its decimal
string representation; the concatenation is left-associated. -/

def sigData (UID totalAmount : String) (totalQuantity : Int)
    (ip clientId clientSecret : String) : String :=
  UID ++ totalAmount ++ toString totalQuantity ++ ip ++ clientId ++ clientSecret

def makeSignature (UID totalAmount : String) (totalQuantity : Int)
    (ip clientId clientSecret : String) : String :=
  digest (sigData UID totalAmount totalQuantity ip clientId clientSecret)

/-- The signature as the specification words it: the base64 encoding of
the SHA-1 digest of the delimiter-free concatenation of the six fields
in the fixed order UID, totalAmount, string of totalQuantity, ip,
clientId, clientSecret. -/
def signatureSpec (UID totalAmount : String) (totalQuantity : Int)
    (ip clientId clientSecret : String) : String :=
  base64Encode (bytesOfNat160 (sha1Nat (utf8Bytes
    (UID ++ (totalAmount ++ (toString totalQuantity ++ (ip ++ (clientId ++ clientSecret))))))))

/-! ## Validation

The ruleset and message declarations below are transcribed from
`validateCreateTransaction` / `validateCompleteTransaction` in the
source; the custom `is_money` rule is the `isMoney` function of the
source (lines 209-218).

Modelled from the spec: the rule evaluation engine itself
(`indicative.validate`) is an external library, not code under src/;
its semantics (fields checked in ruleset declaration order, each
field's rules in listed order, fail-fast on the first violated rule,
whose message with the dotted field path substituted for the
placeholder is the sole error) are taken from spec section 4.2. -/

inductive JVal where
  | vStr (s : String)
  | vInt (n : Int)
  | vObj (fields : List (String × JVal))
  | vArr (elems : List JVal)

/-- JS truthiness of a value, as far as the modelled data can express it. -/
def jsTruthy : JVal → Bool
  | .vStr s => !(s == "")
  | .vInt n => !(n == 0)
  | .vObj _ => true
  | .vArr _ => true

def isDigitC (c : Char) : Bool := 48 ≤ c.toNat && c.toNat ≤ 57

/-- Matching of the source regex `^[0-9]*\.[0-9]{2}$`: the greedy digit
run must be followed by exactly a dot and two digits. -/
def moneyTest (cs : List Char) : Bool :=
  match cs.dropWhile isDigitC with
  | [c0, d1, d2] => c0 == '.' && isDigitC d1 && isDigitC d2
  | _ => false

/-- The source's custom `is_money` rule (src lines 209-218), applied to
the value `get(data, field)` retrieves: a falsy value resolves as
"validation skipped"; otherwise the regex decides.  (`regex.test`
coerces its argument; non-string, non-number values never match the
pattern in the rulesets' reachable cases, since a `string` rule runs
first on the only field carrying `is_money`.) -/
def isMoney (v : Option JVal) : Bool :=
  match v with
  | none => true
  | some jv =>
    if !jsTruthy jv then true
    else
      match jv with
      | .vStr s => moneyTest s.data
      | .vInt n => moneyTest (toString n).data
      | _ => false

inductive VRule where
  | required
  | isString
  | isInteger
  | isObject
  | isIn (vals : List String)
  | requiredWhen (field : String) (value : String)
  | isMoneyRule

/-- Assoc-list lookup among a JS object's fields. -/
def findEntry (k : String) : List (String × JVal) → Option JVal
  | [] => none
  | (k', v) :: rest => if k' = k then some v else findEntry k rest

def getPath : JVal → List String → Option JVal
  | v, [] => some v
  | .vObj fs, k :: ks =>
    match findEntry k fs with
    | some v' => getPath v' ks
    | none => none
  | _, _ :: _ => none

/-- Split a rule's field name at the dots (structurally, so that it
evaluates by kernel reduction). -/
def splitDotsAux : List Char → List Char → List String
  | [], acc => [String.mk acc.reverse]
  | c :: rest, acc =>
    if c = '.' then String.mk acc.reverse :: splitDotsAux rest []
    else splitDotsAux rest (c :: acc)

def splitDots (s : String) : List String := splitDotsAux s.data []

/-- `get(data, field)` for a dotted field path. -/
def lookupField (payload : JVal) (field : String) : Option JVal :=
  getPath payload (splitDots field)

/-- The `required` rule's presence test: absent or empty fails. -/
def isPresent : Option JVal → Bool
  | none => false
  | some (.vStr s) => !(s == "")
  | some _ => true

def checkRule (payload : JVal) (field : String) : VRule → Bool
  | .required => isPresent (lookupField payload field)
  | .isString =>
    match lookupField payload field with
    | none => true
    | some (.vStr _) => true
    | some _ => false
  | .isInteger =>
    match lookupField payload field with
    | none => true
    | some (.vInt _) => true
    | some _ => false
  | .isObject =>
    match lookupField payload field with
    | none => true
    | some (.vObj _) => true
    | some _ => false
  | .isIn vals =>
    match lookupField payload field with
    | none => true
    | some (.vStr s) => vals.contains s
    | some _ => false
  | .requiredWhen f v =>
    match lookupField payload f with
    | some (.vStr s) => if s = v then isPresent (lookupField payload field) else true
    | _ => true
  | .isMoneyRule => isMoney (lookupField payload field)

/-- The message templates of the source's `messages` objects with
`{\x7b...\x7d}`-style field placeholder already substituted by the dotted
field path.  The only `in` rule in the rulesets is on `paymentCode`,
whose message is the field-specific override of the source. -/
def ruleMessage (field : String) : VRule → String
  | .required => field ++ " field is missing."
  | .isString => field ++ " must be a string."
  | .isInteger => field ++ " must be an integer."
  | .isObject => field ++ " must be an object."
  | .isIn _ => field ++ " must be of value ABA, ACD, PNG, WIG, or WIG_VPN."
  | .requiredWhen _ _ => field ++ " field is missing."
  | .isMoneyRule => field ++ " contains invalid amount."

/-- `none` when the rule holds on the payload, `some` of its formatted
message when it is violated. -/
def failMsg (payload : JVal) (field : String) (r : VRule) : Option String :=
  if checkRule payload field r then none else some (ruleMessage field r)

/-- The fail-fast engine: the first violated rule's message, fields in
declaration order, a field's rules in listed order. -/
def firstFailure (payload : JVal) (entries : List (String × List VRule)) : Option String :=
  entries.findSome? (fun e => e.2.findSome? (failMsg payload e.1))

/-- All violated rules' messages, in declaration order (the
aggregate-all-errors reading the engine does not use). -/
def violations (payload : JVal) (entries : List (String × List VRule)) : List String :=
  entries.flatMap (fun e => e.2.filterMap (failMsg payload e.1))

/-- The ruleset of `validateCreateTransaction` (src lines 162-173). -/
def createRules : List (String × List VRule) :=
  [("UID", [.required, .isString]),
   ("totalAmount", [.required, .isString, .isMoneyRule]),
   ("totalQuantity", [.required, .isInteger]),
   ("paymentCode", [.required, .isIn ["ABA", "ACD", "PNG", "WIG", "WIG_VPN"]]),
   ("paymentOptions", [.required, .isObject]),
   ("paymentOptions.accountType", [.requiredWhen "paymentCode" "ACD"]),
   ("paymentOptions.account", [.requiredWhen "paymentCode" "ACD"]),
   ("paymentOptions.paygoId", [.requiredWhen "paymentCode" "PNG"]),
   ("paymentOptions.wingAccount", [.requiredWhen "paymentCode" "WIG_VPN", .isString]),
   ("paymentOptions.wingSecurityCode", [.requiredWhen "paymentCode" "WIG_VPN", .isString])]

/-- The ruleset of `validateCompleteTransaction` (src lines 190-196). -/
def completeRules : List (String × List VRule) :=
  [("UID", [.required, .isString]),
   ("totalAmount", [.required, .isString, .isMoneyRule]),
   ("totalQuantity", [.required, .isInteger]),
   ("txid", [.required]),
   ("securityCode", [.required])]

/-! ## The TS data model (interfaces of the source) -/

structure TransactionItem where
  name : String
  qty : Int
  unit_price : String
deriving DecidableEq

structure PaymentOptions where
  accountType : Option String := none
  account : Option String := none
  paygoId : Option String := none
  wingAccount : Option String := none
  wingSecurityCode : Option String := none
deriving DecidableEq

structure CreateTransactionOptions where
  UID : String
  totalAmount : String
  totalQuantity : Int
  paymentCode : String
  paymentOptions : PaymentOptions
  description : Option String := none
  deviceUDID : Option String := none
  ip : Option String := none
  lat : Option String := none
  lng : Option String := none
  items : Option (List TransactionItem) := none
deriving DecidableEq

structure CompleteTransactionOptions where
  UID : String
  totalAmount : String
  totalQuantity : Int
  txid : String
  securityCode : String
  ip : Option String := none
deriving DecidableEq

/-- A possibly absent string field of the options object, as a JS
object entry list (absent fields simply do not occur in the object). -/
def optEntry (k : String) (v : Option String) : List (String × JVal) :=
  match v with
  | some s => [(k, JVal.vStr s)]
  | none => []

def itemJVal (it : TransactionItem) : JVal :=
  .vObj [("name", .vStr it.name), ("qty", .vInt it.qty), ("unit_price", .vStr it.unit_price)]

def paymentOptionsJVal (p : PaymentOptions) : JVal :=
  .vObj (optEntry "accountType" p.accountType ++ optEntry "account" p.account ++
    optEntry "paygoId" p.paygoId ++ optEntry "wingAccount" p.wingAccount ++
    optEntry "wingSecurityCode" p.wingSecurityCode)

/-- The `options` argument as the JS object the validator walks. -/
def createPayload (o : CreateTransactionOptions) : JVal :=
  .vObj ([("UID", JVal.vStr o.UID), ("totalAmount", JVal.vStr o.totalAmount),
    ("totalQuantity", JVal.vInt o.totalQuantity), ("paymentCode", JVal.vStr o.paymentCode),
    ("paymentOptions", paymentOptionsJVal o.paymentOptions)] ++
    optEntry "description" o.description ++ optEntry "deviceUDID" o.deviceUDID ++
    optEntry "ip" o.ip ++ optEntry "lat" o.lat ++ optEntry "lng" o.lng ++
    (match o.items with
     | some its => [("items", JVal.vArr (its.map itemJVal))]
     | none => []))

def validateCreateTransaction (o : CreateTransactionOptions) : Option String :=
  firstFailure (createPayload o) createRules

def completePayload (o : CompleteTransactionOptions) : JVal :=
  .vObj ([("UID", JVal.vStr o.UID), ("totalAmount", JVal.vStr o.totalAmount),
    ("totalQuantity", JVal.vInt o.totalQuantity), ("txid", JVal.vStr o.txid),
    ("securityCode", JVal.vStr o.securityCode)] ++ optEntry "ip" o.ip)

def validateCompleteTransaction (o : CompleteTransactionOptions) : Option String :=
  firstFailure (completePayload o) completeRules

/-! ## Error normalization (`handleOneEpayError`, src lines 145-158) -/

structure ErrEntry where
  message : String
deriving DecidableEq

structure ResponseData where
  errors : Option (List ErrEntry) := none
  message : Option String := none
  reason : Option String := none
deriving DecidableEq

structure AxiosResponse where
  data : ResponseData
deriving DecidableEq

structure AxiosErr where
  response : Option AxiosResponse := none
deriving DecidableEq

/-- JS truthiness of a possibly absent string (absent and empty are falsy). -/
def truthyS (v : Option String) : Bool := !(v.getD "" == "")

inductive HandleResult where
  | rethrow (e : AxiosErr)
  | newError (msg : String)
deriving DecidableEq

def handleOneEpayError (e : AxiosErr) : HandleResult :=
  match e.response with
  | none => .rethrow e
  | some resp =>
    if (resp.data.errors.getD []).length != 0 then
      .newError (((resp.data.errors.getD []).headD ⟨""⟩).message)
    else if truthyS resp.data.message && truthyS resp.data.reason then
      .newError (resp.data.message.getD "" ++ " " ++ resp.data.reason.getD "")
    else if truthyS resp.data.message then
      .newError (resp.data.message.getD "")
    else .rethrow e

/-! ## The client (class `OneEpay`)

The class instance is a `ClientState`; each operation is a pure
function of the state, the options, and the transport's responses
(auth endpoint and transaction endpoint), returning the new state, the
list of network requests issued, and the outcome. -/

structure ClientState where
  apiURL : String
  clientId : String
  clientSecret : String
  accessToken : Option String
  signature : Option String
deriving DecidableEq

/-- The constructor (src lines 10-14): empty (JS-falsy) configuration
strings raise before anything else runs. -/
def mkOneEpay (apiURL clientId clientSecret : String) : Except String ClientState :=
  if apiURL = "" then .error "Missing OneEpay apiUrl."
  else if clientId = "" then .error "Missing OneEpay clientId."
  else if clientSecret = "" then .error "Missing OneEpay clientSecret."
  else .ok ⟨apiURL, clientId, clientSecret, none, none⟩

structure PaymentOptionsBody where
  account : Option String
  account_type : Option String
  point_id : Option String
  wing_account : Option String
  wing_security_code : Option String
deriving DecidableEq

structure CustomerBody where
  ip : String
  latitude : String
  longitude : String
  udid : String
deriving DecidableEq

structure CreateBody where
  order_id : String
  description : String
  total_amt : String
  total_qty : Int
  currency_code : String
  signature : String
  payment_code : String
  payment_options : PaymentOptionsBody
  items : List TransactionItem
  customer : CustomerBody
deriving DecidableEq

structure CompleteBody where
  txid : String
  signature : String
  security_code : String
  ip : String
deriving DecidableEq

inductive NetEvent where
  | authPost (url client_id permission authHeader : String)
  | createPost (url : String) (body : CreateBody) (authHeader : String)
  | completePost (url : String) (body : CompleteBody) (authHeader : String)
deriving DecidableEq

inductive EventKind where
  | auth
  | create
  | complete
deriving DecidableEq

def eventKind : NetEvent → EventKind
  | .authPost _ _ _ _ => .auth
  | .createPost _ _ _ => .create
  | .completePost _ _ _ => .complete

inductive ThrownError where
  | createError (msg : String)
  | completeError (msg : String)
  | fromHandler (h : HandleResult)
deriving DecidableEq

inductive OpOutcome where
  | ok (respData : String)
  | threw (e : ThrownError)
deriving DecidableEq

/-- JS `a || b` on a possibly absent string: the default is taken when
the field is absent or empty (falsy). -/
def jsOr (v : Option String) (d : String) : String :=
  match v with
  | some s => if s = "" then d else s
  | none => d

/-- `OneEpay.authenticate` (src lines 114-138): hash the credentials,
post to the token endpoint, store the returned token; a transport
failure goes through `handleOneEpayError`, whose throw propagates. -/
def authenticate (st : ClientState) (resp : Except AxiosErr String) :
    ClientState × List NetEvent × Option ThrownError :=
  let authHeader := digest (st.clientId ++ ":" ++ st.clientSecret)
  let ev := NetEvent.authPost (st.apiURL ++ "/v1/oauth/access-token") st.clientId
    "client_credentials" authHeader
  match resp with
  | .ok tok => ({ st with accessToken := some tok }, [ev], none)
  | .error e => (st, [ev], some (.fromHandler (handleOneEpayError e)))

/-- `OneEpay.createTransaction` (src lines 16-75). -/
def createTransaction (st : ClientState) (authResp : Except AxiosErr String)
    (txResp : Except AxiosErr String) (options : CreateTransactionOptions) :
    ClientState × List NetEvent × OpOutcome :=
  match authenticate st authResp with
  | (st1, ev1, some te) => (st1, ev1, .threw te)
  | (st1, ev1, none) =>
    if !truthyS st1.accessToken then
      (st1, ev1, .threw (.createError "Missing authentication. Did you call authenticate first?"))
    else
      match validateCreateTransaction options with
      | some msg => (st1, ev1, .threw (.createError msg))
      | none =>
        let order_id := options.UID
        let total_amt := options.totalAmount
        let total_qty := options.totalQuantity
        let orderName := "Order #" ++ order_id ++ "."
        let payment_options : PaymentOptionsBody :=
          { account := options.paymentOptions.account,
            account_type := options.paymentOptions.accountType,
            point_id := options.paymentOptions.paygoId,
            wing_account := options.paymentOptions.wingAccount,
            wing_security_code := options.paymentOptions.wingSecurityCode }
        let description := jsOr options.description orderName
        let ip := jsOr options.ip "Unknown IP"
        let latitude := jsOr options.lat "Unknown Latitude"
        let longitude := jsOr options.lng "Unknown Longitude"
        let udid := jsOr options.deviceUDID "Unknown Device UDID"
        let items := options.items.getD [⟨orderName, 1, options.totalAmount⟩]
        let sigVal := makeSignature order_id total_amt total_qty ip st1.clientId st1.clientSecret
        let st2 := { st1 with signature := some sigVal }
        let body : CreateBody :=
          { order_id, description, total_amt, total_qty, currency_code := "USD",
            signature := sigVal, payment_code := options.paymentCode, payment_options, items,
            customer := ⟨ip, latitude, longitude, udid⟩ }
        let evs := ev1 ++ [NetEvent.createPost (st2.apiURL ++ "/v1/payments/transactions") body
          ("Bearer " ++ st1.accessToken.getD "")]
        match txResp with
        | .ok d => (st2, evs, .ok d)
        | .error e => (st2, evs, .threw (.fromHandler (handleOneEpayError e)))

/-- `OneEpay.completeTransaction` (src lines 77-112). -/
def completeTransaction (st : ClientState) (authResp : Except AxiosErr String)
    (txResp : Except AxiosErr String) (options : CompleteTransactionOptions) :
    ClientState × List NetEvent × OpOutcome :=
  match authenticate st authResp with
  | (st1, ev1, some te) => (st1, ev1, .threw te)
  | (st1, ev1, none) =>
    if !truthyS st1.accessToken then
      (st1, ev1,
        .threw (.completeError "Missing authentication. Did you call authenticate first?"))
    else
      match validateCompleteTransaction options with
      | some msg => (st1, ev1, .threw (.completeError msg))
      | none =>
        let ip := jsOr options.ip "Unknown IP"
        let sigVal := makeSignature options.UID options.totalAmount options.totalQuantity ip
          st1.clientId st1.clientSecret
        let st2 := { st1 with signature := some sigVal }
        let body : CompleteBody := ⟨options.txid, sigVal, options.securityCode, ip⟩
        let evs := ev1 ++ [NetEvent.completePost
          (st2.apiURL ++ "/v1/payments/transactions/commit") body
          ("Bearer " ++ st1.accessToken.getD "")]
        match txResp with
        | .ok d => (st2, evs, .ok d)
        | .error e => (st2, evs, .threw (.fromHandler (handleOneEpayError e)))

/-! ## Derived notions used by the statements -/

/-- The body of the first create request among the issued requests. -/
def submittedCreateBody (evs : List NetEvent) : Option CreateBody :=
  evs.findSome? (fun e =>
    match e with
    | .createPost _ b _ => some b
    | _ => none)

/-- The money pattern as the specification words it: zero or more
digits, a literal dot, exactly two digits. -/
def matchesMoneyPattern (s : String) : Prop :=
  ∃ ds d1 d2, s.data = ds ++ ['.', d1, d2] ∧ ds.all isDigitC = true ∧
    isDigitC d1 = true ∧ isDigitC d2 = true

/-- Distinct order UIDs for the collision argument: the string of the
low `k` bits of `n`. -/
def encodeBits (k n : Nat) : String :=
  String.mk ((List.range k).map (fun i => if n.testBit i then 'b' else 'a'))

/-- The create request body the happy path submits, as a function of the
credentials and options (used to state the trace lemmas). -/
def createBodyOf (clientId clientSecret : String) (o : CreateTransactionOptions) : CreateBody :=
  let orderName := "Order #" ++ o.UID ++ "."
  { order_id := o.UID,
    description := jsOr o.description orderName,
    total_amt := o.totalAmount,
    total_qty := o.totalQuantity,
    currency_code := "USD",
    signature := makeSignature o.UID o.totalAmount o.totalQuantity (jsOr o.ip "Unknown IP")
      clientId clientSecret,
    payment_code := o.paymentCode,
    payment_options := ⟨o.paymentOptions.account, o.paymentOptions.accountType,
      o.paymentOptions.paygoId, o.paymentOptions.wingAccount, o.paymentOptions.wingSecurityCode⟩,
    items := o.items.getD [⟨orderName, 1, o.totalAmount⟩],
    customer := ⟨jsOr o.ip "Unknown IP", jsOr o.lat "Unknown Latitude",
      jsOr o.lng "Unknown Longitude", jsOr o.deviceUDID "Unknown Device UDID"⟩ }

/-- The commit request body of the happy path. -/
def completeBodyOf (clientId clientSecret : String) (o : CompleteTransactionOptions) :
    CompleteBody :=
  ⟨o.txid,
    makeSignature o.UID o.totalAmount o.totalQuantity (jsOr o.ip "Unknown IP")
      clientId clientSecret,
    o.securityCode, jsOr o.ip "Unknown IP"⟩

/-- The authentication request of a client state. -/
def authEventOf (st : ClientState) : NetEvent :=
  .authPost (st.apiURL ++ "/v1/oauth/access-token") st.clientId "client_credentials"
    (digest (st.clientId ++ ":" ++ st.clientSecret))

/-- A freshly constructed client. -/
def exampleState : ClientState := ⟨"https://api.oneepay.example", "cid", "cs", none, none⟩

/-- A client that already holds a cached access token. -/
def cachedState : ClientState := ⟨"https://api.oneepay.example", "cid", "cs", some "cachedToken", none⟩

/-- The spec's default-substitution example: X1, 10.00, quantity 2, ABA,
empty payment options, no optional field. -/
def x1Options : CreateTransactionOptions :=
  ⟨"X1", "10.00", 2, "ABA", ⟨none, none, none, none, none⟩, none, none, none, none, none, none⟩

/-- PNG payment without the conditionally required paygoId. -/
def pngMissingOptions : CreateTransactionOptions :=
  ⟨"X2", "10.00", 1, "PNG", ⟨none, none, none, none, none⟩, none, none, none, none, none, none⟩

/-- A string field that is present with a non-empty value (what the
required rules accept). -/
def hasValue : Option String → Bool
  | some s => !(s == "")
  | none => false

/-! ## Sanity checks of the hash pipeline against published SHA-1/base64 vectors -/

theorem digest_empty_vector : digest "" = "2jmj7l5rSw0yVb/vlWAYkK/YBwk=" := by decide

theorem digest_abc_vector : digest "abc" = "qZk+NkcGgWq6PiVxeFDCbJzQ2J0=" := by decide

theorem digest_fox_vector :
    digest "The quick brown fox jumps over the lazy dog" = "L9ThxnotKPzthJ7hu3bnORuT6xI=" := by
  decide

/-! ## Helper lemmas -/

theorem moneyTest_iff (s : String) : moneyTest s.data = true ↔ matchesMoneyPattern s := by
  constructor
  · intro h
    unfold moneyTest at h
    rcases hd : s.data.dropWhile isDigitC with _ | ⟨c0, tail⟩
    · rw [hd] at h; simp at h
    · rcases tail with _ | ⟨d1, tail2⟩
      · rw [hd] at h; simp at h
      · rcases tail2 with _ | ⟨d2, tail3⟩
        · rw [hd] at h; simp at h
        · rcases tail3 with _ | ⟨c4, tail4⟩
          · rw [hd] at h
            simp only [Bool.and_eq_true, beq_iff_eq] at h
            obtain ⟨⟨hc0, h1⟩, h2⟩ := h
            refine ⟨s.data.takeWhile isDigitC, d1, d2, ?_, ?_, h1, h2⟩
            · rw [← hc0, ← hd]
              exact (List.takeWhile_append_dropWhile (p := isDigitC) (l := s.data)).symm
            · rw [List.all_eq_true]
              intro c hc
              exact List.mem_takeWhile_imp hc
          · rw [hd] at h; simp at h
  · rintro ⟨ds, d1, d2, hdata, hall, h1, h2⟩
    have hds : ds.dropWhile isDigitC = [] := by
      rw [List.dropWhile_eq_nil_iff]
      intro c hc
      exact (List.all_eq_true.mp hall) c hc
    have hdot : isDigitC '.' = false := by decide
    have hdrop : s.data.dropWhile isDigitC = ['.', d1, d2] := by
      rw [hdata, List.dropWhile_append, hds]
      simp [List.dropWhile_cons, hdot]
    unfold moneyTest
    rw [hdrop]
    simp [h1, h2]

/-! ## Claim theorems -/

/-- C1: the signature computed before submitting a transaction equals
the base64 encoding of the SHA-1 digest of the delimiter-free
concatenation UID ++ totalAmount ++ string of totalQuantity ++ ip ++
clientId ++ clientSecret, in that fixed order; it is a pure function
of those six inputs (no randomness, no timestamp). -/
theorem claim_C1_signature_formula (UID totalAmount : String) (totalQuantity : Int)
    (ip clientId clientSecret : String) :
    makeSignature UID totalAmount totalQuantity ip clientId clientSecret =
      signatureSpec UID totalAmount totalQuantity ip clientId clientSecret := by
  simp only [makeSignature, signatureSpec, sigData, digest, String.append_assoc]

/-- C5: the `is_money` rule passes on a string value exactly when the
value matches zero-or-more digits, a literal dot, and exactly two
digits; an absent or empty value is a pass (skipped), never a failure;
in particular "12.34" passes while "12.3", "12" and "12.345" fail. -/
theorem claim_C5_is_money_rule :
    (∀ s : String, isMoney (some (JVal.vStr s)) = true ↔ (s = "" ∨ matchesMoneyPattern s)) ∧
      isMoney none = true ∧ isMoney (some (JVal.vStr "")) = true ∧
      isMoney (some (JVal.vStr "12.34")) = true ∧ isMoney (some (JVal.vStr "12.3")) = false ∧
      isMoney (some (JVal.vStr "12")) = false ∧ isMoney (some (JVal.vStr "12.345")) = false := by
  refine ⟨fun s => ?_, by decide, by decide, by decide, by decide, by decide, by decide⟩
  by_cases hs : s = ""
  · subst hs
    simp [isMoney, jsTruthy]
  · have ht : jsTruthy (JVal.vStr s) = true := by
      have hb : (s == "") = false := beq_eq_false_iff_ne.mpr hs
      simp [jsTruthy, hb]
    simp [isMoney, ht, hs, moneyTest_iff]

/-- C9: constructing the client with an empty apiURL, clientId or
clientSecret raises a configuration error (before any network use: the
constructor issues no request); with all three non-empty, construction
succeeds. -/
theorem claim_C9_constructor_checks :
    (∀ apiURL clientId clientSecret : String,
        apiURL = "" ∨ clientId = "" ∨ clientSecret = "" →
        ∃ msg, mkOneEpay apiURL clientId clientSecret = .error msg) ∧
      (∀ apiURL clientId clientSecret : String, apiURL ≠ "" → clientId ≠ "" →
        clientSecret ≠ "" →
        mkOneEpay apiURL clientId clientSecret =
          .ok ⟨apiURL, clientId, clientSecret, none, none⟩) := by
  constructor
  · intro a b c h
    unfold mkOneEpay
    rcases h with h | h | h
    · exact ⟨"Missing OneEpay apiUrl.", by simp [h]⟩
    · by_cases ha : a = ""
      · exact ⟨"Missing OneEpay apiUrl.", by simp [ha]⟩
      · exact ⟨"Missing OneEpay clientId.", by simp [ha, h]⟩
    · by_cases ha : a = ""
      · exact ⟨"Missing OneEpay apiUrl.", by simp [ha]⟩
      · by_cases hb : b = ""
        · exact ⟨"Missing OneEpay clientId.", by simp [ha, hb]⟩
        · exact ⟨"Missing OneEpay clientSecret.", by simp [ha, hb, h]⟩
  · intro a b c ha hb hc
    simp [mkOneEpay, ha, hb, hc]

theorem claim_C9_witness :
    (("" : String) = "" ∨ ("id" : String) = "" ∨ ("secret" : String) = "") ∧
      (∃ msg, mkOneEpay "" "id" "secret" = .error msg) ∧
      mkOneEpay "https://api" "id" "secret" =
        .ok ⟨"https://api", "id", "secret", none, none⟩ := by
  refine ⟨Or.inl rfl, claim_C9_constructor_checks.1 "" "id" "secret" (Or.inl rfl), ?_⟩
  exact claim_C9_constructor_checks.2 "https://api" "id" "secret" (by decide) (by decide)
    (by decide)

/-- C8: the error normalizer re-raises the original error when there is
no structured response; otherwise, in strict priority order: a
non-empty errors list wins with the first entry's message, then
message-and-reason concatenated with a space, then message alone, else
the original error; the body with errors [message "a"], message "b",
reason "c" normalizes to message "a". -/
theorem claim_C8_error_normalizer :
    (∀ e : AxiosErr, e.response = none → handleOneEpayError e = .rethrow e) ∧
      (∀ (e : AxiosErr) (r : AxiosResponse) (es : List ErrEntry), e.response = some r →
        r.data.errors.getD [] = es → es ≠ [] →
        handleOneEpayError e = .newError ((es.headD ⟨""⟩).message)) ∧
      (∀ (e : AxiosErr) (r : AxiosResponse), e.response = some r →
        r.data.errors.getD [] = [] → truthyS r.data.message = true →
        truthyS r.data.reason = true →
        handleOneEpayError e =
          .newError (r.data.message.getD "" ++ " " ++ r.data.reason.getD "")) ∧
      (∀ (e : AxiosErr) (r : AxiosResponse), e.response = some r →
        r.data.errors.getD [] = [] → truthyS r.data.message = true →
        truthyS r.data.reason = false →
        handleOneEpayError e = .newError (r.data.message.getD "")) ∧
      (∀ (e : AxiosErr) (r : AxiosResponse), e.response = some r →
        r.data.errors.getD [] = [] → truthyS r.data.message = false →
        handleOneEpayError e = .rethrow e) ∧
      handleOneEpayError ⟨some ⟨⟨some [⟨"a"⟩], some "b", some "c"⟩⟩⟩ = .newError "a" := by
  refine ⟨?_, ?_, ?_, ?_, ?_, by decide⟩
  · intro e h
    simp [handleOneEpayError, h]
  · intro e r es hresp hes hne
    rcases es with _ | ⟨x, xs⟩
    · exact absurd rfl hne
    · simp [handleOneEpayError, hresp, hes]
  · intro e r hresp hes hm hr
    simp [handleOneEpayError, hresp, hes, hm, hr]
  · intro e r hresp hes hm hr
    simp [handleOneEpayError, hresp, hes, hm, hr]
  · intro e r hresp hes hm
    simp [handleOneEpayError, hresp, hes, hm]

theorem claim_C8_witness :
    handleOneEpayError ⟨none⟩ = .rethrow ⟨none⟩ ∧
      handleOneEpayError ⟨some ⟨⟨some [⟨"x"⟩], none, none⟩⟩⟩ = .newError "x" ∧
      handleOneEpayError ⟨some ⟨⟨none, some "m", some "r"⟩⟩⟩ = .newError "m r" ∧
      handleOneEpayError ⟨some ⟨⟨none, some "m", none⟩⟩⟩ = .newError "m" ∧
      handleOneEpayError ⟨some ⟨⟨none, none, some "r"⟩⟩⟩ = .rethrow ⟨some ⟨⟨none, none, some "r"⟩⟩⟩ := by
  refine ⟨claim_C8_error_normalizer.1 ⟨none⟩ rfl,
    claim_C8_error_normalizer.2.1 ⟨some ⟨⟨some [⟨"x"⟩], none, none⟩⟩⟩ ⟨⟨some [⟨"x"⟩], none, none⟩⟩
      [⟨"x"⟩] rfl rfl (by decide), ?_, ?_, ?_⟩
  · exact claim_C8_error_normalizer.2.2.1 ⟨some ⟨⟨none, some "m", some "r"⟩⟩⟩
      ⟨⟨none, some "m", some "r"⟩⟩ rfl rfl (by decide) (by decide)
  · exact claim_C8_error_normalizer.2.2.2.1 ⟨some ⟨⟨none, some "m", none⟩⟩⟩
      ⟨⟨none, some "m", none⟩⟩ rfl rfl (by decide) (by decide)
  · exact claim_C8_error_normalizer.2.2.2.2.1 ⟨some ⟨⟨none, none, some "r"⟩⟩⟩
      ⟨⟨none, none, some "r"⟩⟩ rfl rfl (by decide)

theorem findSome?_eq_head?_filterMap {α β : Type} (f : α → Option β) (l : List α) :
    l.findSome? f = (l.filterMap f).head? := by
  induction l with
  | nil => rfl
  | cons a t ih =>
    cases h : f a
    · rw [List.findSome?_cons_of_isNone _ (by simp [h]), List.filterMap_cons_none h]
      exact ih
    · rw [List.findSome?_cons_of_isSome _ (by simp [h]), List.filterMap_cons_some h, h]
      rfl

theorem firstFailure_eq_head_violations (p : JVal) (entries : List (String × List VRule)) :
    firstFailure p entries = (violations p entries).head? := by
  unfold firstFailure violations
  rw [List.head?_flatMap]
  exact congrFun (congrArg _ (funext fun e => findSome?_eq_head?_filterMap _ _)) entries

/-- C6: when a payload violates at least one rule, validation produces
exactly one message: the first-declared violated rule's message (fields
in ruleset declaration order, a field's rules in listed order, with the
dotted field path substituted), never an aggregate of the remaining
violations. -/
theorem claim_C6_first_failure_only :
    (∀ (o : CreateTransactionOptions) (m : String) (rest : List String),
        violations (createPayload o) createRules = m :: rest →
        validateCreateTransaction o = some m) ∧
      (∀ (o : CompleteTransactionOptions) (m : String) (rest : List String),
        violations (completePayload o) completeRules = m :: rest →
        validateCompleteTransaction o = some m) := by
  constructor
  · intro o m rest h
    unfold validateCreateTransaction
    rw [firstFailure_eq_head_violations, h]
    rfl
  · intro o m rest h
    unfold validateCompleteTransaction
    rw [firstFailure_eq_head_violations, h]
    rfl

theorem claim_C6_witness :
    violations
        (completePayload ⟨"U1", "12.3", 1, "", "", none⟩) completeRules =
      "totalAmount contains invalid amount." ::
        ["txid field is missing.", "securityCode field is missing."] ∧
      validateCompleteTransaction ⟨"U1", "12.3", 1, "", "", none⟩ =
        some "totalAmount contains invalid amount." := by
  refine ⟨by decide, ?_⟩
  exact claim_C6_first_failure_only.2 ⟨"U1", "12.3", 1, "", "", none⟩
    "totalAmount contains invalid amount."
    ["txid field is missing.", "securityCode field is missing."] (by decide)

/-! ## Trace lemmas for the two operations -/

theorem createTransaction_happy (st : ClientState) (tok d : String)
    (o : CreateTransactionOptions) (htok : tok ≠ "")
    (hval : validateCreateTransaction o = none) :
    createTransaction st (.ok tok) (.ok d) o =
      ({ st with
          accessToken := some tok,
          signature := some (createBodyOf st.clientId st.clientSecret o).signature },
        [authEventOf st,
          NetEvent.createPost (st.apiURL ++ "/v1/payments/transactions")
            (createBodyOf st.clientId st.clientSecret o) ("Bearer " ++ tok)],
        OpOutcome.ok d) := by
  have hb : (tok == "") = false := beq_eq_false_iff_ne.mpr htok
  simp only [createTransaction, authenticate, truthyS, Option.getD_some, hb, Bool.not_false,
    Bool.not_true, hval, authEventOf, createBodyOf, makeSignature, jsOr]
  rfl

theorem completeTransaction_happy (st : ClientState) (tok d : String)
    (o : CompleteTransactionOptions) (htok : tok ≠ "")
    (hval : validateCompleteTransaction o = none) :
    completeTransaction st (.ok tok) (.ok d) o =
      ({ st with
          accessToken := some tok,
          signature := some (completeBodyOf st.clientId st.clientSecret o).signature },
        [authEventOf st,
          NetEvent.completePost (st.apiURL ++ "/v1/payments/transactions/commit")
            (completeBodyOf st.clientId st.clientSecret o) ("Bearer " ++ tok)],
        OpOutcome.ok d) := by
  have hb : (tok == "") = false := beq_eq_false_iff_ne.mpr htok
  simp only [completeTransaction, authenticate, truthyS, Option.getD_some, hb, Bool.not_false,
    Bool.not_true, hval, authEventOf, completeBodyOf, makeSignature, jsOr]
  rfl

theorem createTransaction_invalid (st : ClientState) (tok : String)
    (txResp : Except AxiosErr String) (o : CreateTransactionOptions) (msg : String)
    (htok : tok ≠ "") (hval : validateCreateTransaction o = some msg) :
    createTransaction st (.ok tok) txResp o =
      ({ st with accessToken := some tok }, [authEventOf st],
        OpOutcome.threw (.createError msg)) := by
  have hb : (tok == "") = false := beq_eq_false_iff_ne.mpr htok
  simp only [createTransaction, authenticate, truthyS, Option.getD_some, hb, Bool.not_false,
    Bool.not_true, hval, authEventOf]
  rfl

theorem completeTransaction_invalid (st : ClientState) (tok : String)
    (txResp : Except AxiosErr String) (o : CompleteTransactionOptions) (msg : String)
    (htok : tok ≠ "") (hval : validateCompleteTransaction o = some msg) :
    completeTransaction st (.ok tok) txResp o =
      ({ st with accessToken := some tok }, [authEventOf st],
        OpOutcome.threw (.completeError msg)) := by
  have hb : (tok == "") = false := beq_eq_false_iff_ne.mpr htok
  simp only [completeTransaction, authenticate, truthyS, Option.getD_some, hb, Bool.not_false,
    Bool.not_true, hval, authEventOf]
  rfl

/-- C2 (amended): with all optional fields absent, the submitted create
body defaults description to "Order #<UID>.", the customer to the four
"Unknown ..." placeholder strings, and items to the single synthesized
item whose name is the description and whose unit_price is totalAmount
-- but whose qty is the literal 1 of the source (src line 46), not
totalQuantity. -/
theorem claim_C2_default_substitution (st : ClientState) (tok d UID amt : String) (qty : Int)
    (pc : String) (po : PaymentOptions) (htok : tok ≠ "")
    (hval : validateCreateTransaction
      ⟨UID, amt, qty, pc, po, none, none, none, none, none, none⟩ = none) :
    (createTransaction st (.ok tok) (.ok d)
        ⟨UID, amt, qty, pc, po, none, none, none, none, none, none⟩).2.1 =
      [authEventOf st,
        NetEvent.createPost (st.apiURL ++ "/v1/payments/transactions")
          { order_id := UID,
            description := "Order #" ++ UID ++ ".",
            total_amt := amt,
            total_qty := qty,
            currency_code := "USD",
            signature := makeSignature UID amt qty "Unknown IP" st.clientId st.clientSecret,
            payment_code := pc,
            payment_options := ⟨po.account, po.accountType, po.paygoId, po.wingAccount,
              po.wingSecurityCode⟩,
            items := [⟨"Order #" ++ UID ++ ".", 1, amt⟩],
            customer := ⟨"Unknown IP", "Unknown Latitude", "Unknown Longitude",
              "Unknown Device UDID"⟩ }
          ("Bearer " ++ tok)] := by
  rw [createTransaction_happy st tok d _ htok hval]
  rfl

theorem claim_C2_witness :
    ("tok" : String) ≠ "" ∧
      validateCreateTransaction
        ⟨"X1", "10.00", 2, "ABA", ⟨none, none, none, none, none⟩,
          none, none, none, none, none, none⟩ = none ∧
      (createTransaction exampleState (.ok "tok") (.ok "resp")
          ⟨"X1", "10.00", 2, "ABA", ⟨none, none, none, none, none⟩,
            none, none, none, none, none, none⟩).2.1 =
        [authEventOf exampleState,
          NetEvent.createPost (exampleState.apiURL ++ "/v1/payments/transactions")
            { order_id := "X1",
              description := "Order #" ++ "X1" ++ ".",
              total_amt := "10.00",
              total_qty := 2,
              currency_code := "USD",
              signature := makeSignature "X1" "10.00" 2 "Unknown IP" exampleState.clientId
                exampleState.clientSecret,
              payment_code := "ABA",
              payment_options := ⟨none, none, none, none, none⟩,
              items := [⟨"Order #" ++ "X1" ++ ".", 1, "10.00"⟩],
              customer := ⟨"Unknown IP", "Unknown Latitude", "Unknown Longitude",
                "Unknown Device UDID"⟩ }
            ("Bearer " ++ "tok")] :=
  ⟨by decide, by decide,
    claim_C2_default_substitution exampleState "tok" "resp" "X1" "10.00" 2 "ABA"
      ⟨none, none, none, none, none⟩ (by decide) (by decide)⟩

/-- C2 counterexample: on the spec's own example (UID X1, totalAmount
"10.00", totalQuantity 2, ABA, no items), the submitted items sequence
carries qty 1, not the claimed qty 2 = totalQuantity. -/
theorem claim_C2_counterexample :
    validateCreateTransaction x1Options = none ∧
      Option.map CreateBody.items
          (submittedCreateBody
            (createTransaction exampleState (.ok "tok") (.ok "resp") x1Options).2.1) =
        some [⟨"Order #X1.", 1, "10.00"⟩] ∧
      Option.map CreateBody.description
          (submittedCreateBody
            (createTransaction exampleState (.ok "tok") (.ok "resp") x1Options).2.1) =
        some "Order #X1." ∧
      ¬ Option.map CreateBody.items
          (submittedCreateBody
            (createTransaction exampleState (.ok "tok") (.ok "resp") x1Options).2.1) =
        some [⟨"Order #X1.", 2, "10.00"⟩] := by
  decide

/-- C3 (amended): on the happy path both operations perform exactly two
network writes -- the authentication post followed by the transaction
post -- for every starting state, including one that already holds a
cached access token: `authenticate` is invoked unconditionally. -/
theorem claim_C3_two_writes :
    (∀ (st : ClientState) (tok d : String) (o : CreateTransactionOptions), tok ≠ "" →
        validateCreateTransaction o = none →
        ((createTransaction st (.ok tok) (.ok d) o).2.1).map eventKind =
          [EventKind.auth, EventKind.create]) ∧
      (∀ (st : ClientState) (tok d : String) (o : CompleteTransactionOptions), tok ≠ "" →
        validateCompleteTransaction o = none →
        ((completeTransaction st (.ok tok) (.ok d) o).2.1).map eventKind =
          [EventKind.auth, EventKind.complete]) := by
  constructor
  · intro st tok d o htok hval
    rw [createTransaction_happy st tok d o htok hval]
    rfl
  · intro st tok d o htok hval
    rw [completeTransaction_happy st tok d o htok hval]
    rfl

theorem claim_C3_witness :
    ("tok" : String) ≠ "" ∧ validateCreateTransaction x1Options = none ∧
      ((createTransaction cachedState (.ok "tok") (.ok "resp") x1Options).2.1).map eventKind =
        [EventKind.auth, EventKind.create] ∧
      validateCompleteTransaction ⟨"U1", "12.00", 1, "t1", "s1", none⟩ = none ∧
      ((completeTransaction cachedState (.ok "tok") (.ok "resp")
            ⟨"U1", "12.00", 1, "t1", "s1", none⟩).2.1).map eventKind =
        [EventKind.auth, EventKind.complete] :=
  ⟨by decide, by decide,
    claim_C3_two_writes.1 cachedState "tok" "resp" x1Options (by decide) (by decide),
    by decide,
    claim_C3_two_writes.2 cachedState "tok" "resp" ⟨"U1", "12.00", 1, "t1", "s1", none⟩
      (by decide) (by decide)⟩

/-- C3 counterexample: a client that already holds a cached token still
sends the authentication request and performs two network writes on a
happy-path createTransaction, contradicting "exactly one network write
and no authenticate call". -/
theorem claim_C3_counterexample :
    cachedState.accessToken = some "cachedToken" ∧
      ((createTransaction cachedState (.ok "t2") (.ok "resp") x1Options).2.1).map eventKind =
        [EventKind.auth, EventKind.create] ∧
      ((createTransaction cachedState (.ok "t2") (.ok "resp") x1Options).2.1).length = 2 ∧
      ((createTransaction cachedState (.ok "t2") (.ok "resp") x1Options).2.1).countP
          (fun e => eventKind e == EventKind.auth) = 1 := by
  decide

/-- C10: in both operations authentication runs before validation: when
the options fail validation (with the auth endpoint answering a
non-empty token), the operation has already issued the authentication
request and overwritten the cached access token by the time the
validation error is thrown. -/
theorem claim_C10_auth_before_validation :
    (∀ (st : ClientState) (tok : String) (txResp : Except AxiosErr String)
        (o : CreateTransactionOptions) (msg : String), tok ≠ "" →
        validateCreateTransaction o = some msg →
        createTransaction st (.ok tok) txResp o =
          ({ st with accessToken := some tok }, [authEventOf st],
            OpOutcome.threw (.createError msg))) ∧
      (∀ (st : ClientState) (tok : String) (txResp : Except AxiosErr String)
        (o : CompleteTransactionOptions) (msg : String), tok ≠ "" →
        validateCompleteTransaction o = some msg →
        completeTransaction st (.ok tok) txResp o =
          ({ st with accessToken := some tok }, [authEventOf st],
            OpOutcome.threw (.completeError msg))) :=
  ⟨fun st tok txResp o msg htok hval => createTransaction_invalid st tok txResp o msg htok hval,
    fun st tok txResp o msg htok hval =>
      completeTransaction_invalid st tok txResp o msg htok hval⟩

theorem claim_C10_witness :
    ("tok" : String) ≠ "" ∧
      validateCreateTransaction pngMissingOptions =
        some "paymentOptions.paygoId field is missing." ∧
      createTransaction exampleState (.ok "tok") (.ok "resp") pngMissingOptions =
        ({ exampleState with accessToken := some "tok" }, [authEventOf exampleState],
          OpOutcome.threw (.createError "paymentOptions.paygoId field is missing.")) ∧
      validateCompleteTransaction ⟨"U1", "12.3", 1, "t1", "s1", none⟩ =
        some "totalAmount contains invalid amount." ∧
      completeTransaction exampleState (.ok "tok") (.ok "resp") ⟨"U1", "12.3", 1, "t1", "s1", none⟩ =
        ({ exampleState with accessToken := some "tok" }, [authEventOf exampleState],
          OpOutcome.threw (.completeError "totalAmount contains invalid amount.")) :=
  ⟨by decide, by decide,
    claim_C10_auth_before_validation.1 exampleState "tok" (.ok "resp") pngMissingOptions
      "paymentOptions.paygoId field is missing." (by decide) (by decide),
    by decide,
    claim_C10_auth_before_validation.2 exampleState "tok" (.ok "resp")
      ⟨"U1", "12.3", 1, "t1", "s1", none⟩ "totalAmount contains invalid amount."
      (by decide) (by decide)⟩

/-! ## Lookup lemmas for the create ruleset's fields -/

theorem lookup_create_fields (o : CreateTransactionOptions) :
    lookupField (createPayload o) "UID" = some (.vStr o.UID) ∧
      lookupField (createPayload o) "totalAmount" = some (.vStr o.totalAmount) ∧
      lookupField (createPayload o) "totalQuantity" = some (.vInt o.totalQuantity) ∧
      lookupField (createPayload o) "paymentCode" = some (.vStr o.paymentCode) ∧
      lookupField (createPayload o) "paymentOptions" =
        some (paymentOptionsJVal o.paymentOptions) :=
  ⟨rfl, rfl, rfl, rfl, rfl⟩

theorem lookup_po_subfields (o : CreateTransactionOptions) :
    lookupField (createPayload o) "paymentOptions.accountType" =
        Option.map JVal.vStr o.paymentOptions.accountType ∧
      lookupField (createPayload o) "paymentOptions.account" =
        Option.map JVal.vStr o.paymentOptions.account ∧
      lookupField (createPayload o) "paymentOptions.paygoId" =
        Option.map JVal.vStr o.paymentOptions.paygoId ∧
      lookupField (createPayload o) "paymentOptions.wingAccount" =
        Option.map JVal.vStr o.paymentOptions.wingAccount ∧
      lookupField (createPayload o) "paymentOptions.wingSecurityCode" =
        Option.map JVal.vStr o.paymentOptions.wingSecurityCode := by
  rcases o with ⟨U, A, Q, P, po, x1, x2, x3, x4, x5, x6⟩
  rcases po with ⟨a, b, c, d, e⟩
  rcases a with _ | a <;> rcases b with _ | b <;> rcases c with _ | c <;>
    rcases d with _ | d <;> rcases e with _ | e <;>
    exact ⟨rfl, rfl, rfl, rfl, rfl⟩

set_option maxHeartbeats 4000000 in
/-- The conditional paymentOptions requirements of the create ruleset,
as a characterization of `validateCreateTransaction` for options whose
unconditional fields are valid. -/
theorem validateCreate_characterization :
    ∀ o : CreateTransactionOptions, o.UID ≠ "" → moneyTest o.totalAmount.data = true →
      o.paymentCode ∈ ["ABA", "ACD", "PNG", "WIG", "WIG_VPN"] →
      (validateCreateTransaction o = none ↔
        (o.paymentCode = "ACD" →
          hasValue o.paymentOptions.accountType = true ∧
            hasValue o.paymentOptions.account = true) ∧
          (o.paymentCode = "PNG" → hasValue o.paymentOptions.paygoId = true) ∧
          (o.paymentCode = "WIG_VPN" →
            hasValue o.paymentOptions.wingAccount = true ∧
              hasValue o.paymentOptions.wingSecurityCode = true)) := by
  intro o hU hA hC
  have hU' : (o.UID == "") = false := beq_eq_false_iff_ne.mpr hU
  have hAne : o.totalAmount ≠ "" := by
    intro h
    rw [h] at hA
    exact absurd hA (by decide)
  have hA' : (o.totalAmount == "") = false := beq_eq_false_iff_ne.mpr hAne
  obtain ⟨l1, l2, l3, l4, l5⟩ := lookup_create_fields o
  obtain ⟨m1, m2, m3, m4, m5⟩ := lookup_po_subfields o
  simp only [List.mem_cons, List.mem_singleton, List.not_mem_nil, or_false] at hC
  rcases hC with h | h | h | h | h <;>
    rw [validateCreateTransaction] <;>
    simp only [firstFailure, createRules, List.findSome?_cons, List.findSome?_nil, failMsg,
      checkRule, ruleMessage, l1, l2, l3, l4, l5, m1, m2, m3, m4, m5, isPresent, isMoney,
      jsTruthy, paymentOptionsJVal, h, hU', hA', hA] <;>
    rcases ha : o.paymentOptions.accountType with _ | s1 <;>
    rcases hb : o.paymentOptions.account with _ | s2 <;>
    rcases hc2 : o.paymentOptions.paygoId with _ | s3 <;>
    rcases hd : o.paymentOptions.wingAccount with _ | s4 <;>
    rcases he : o.paymentOptions.wingSecurityCode with _ | s5 <;>
    simp [hasValue] <;> split_ifs <;> simp_all

/-- C7: create validation requires paymentOptions subfields exactly
according to paymentCode -- ACD needs account and accountType, PNG
needs paygoId, WIG_VPN needs wingAccount and wingSecurityCode, ABA and
WIG need none -- and in particular PNG without paygoId fails with the
paymentOptions.paygoId message while ABA with empty paymentOptions
passes. -/
theorem claim_C7_conditional_requirements :
    (∀ o : CreateTransactionOptions, o.UID ≠ "" → moneyTest o.totalAmount.data = true →
        o.paymentCode ∈ ["ABA", "ACD", "PNG", "WIG", "WIG_VPN"] →
        (validateCreateTransaction o = none ↔
          (o.paymentCode = "ACD" →
            hasValue o.paymentOptions.accountType = true ∧
              hasValue o.paymentOptions.account = true) ∧
            (o.paymentCode = "PNG" → hasValue o.paymentOptions.paygoId = true) ∧
            (o.paymentCode = "WIG_VPN" →
              hasValue o.paymentOptions.wingAccount = true ∧
                hasValue o.paymentOptions.wingSecurityCode = true))) ∧
      validateCreateTransaction pngMissingOptions =
        some "paymentOptions.paygoId field is missing." ∧
      validateCreateTransaction
        ⟨"X1", "10.00", 2, "ABA", ⟨none, none, none, none, none⟩,
          none, none, none, none, none, none⟩ = none :=
  ⟨validateCreate_characterization, by decide, by decide⟩

theorem claim_C7_witness :
    pngMissingOptions.UID ≠ "" ∧ moneyTest pngMissingOptions.totalAmount.data = true ∧
      pngMissingOptions.paymentCode ∈ ["ABA", "ACD", "PNG", "WIG", "WIG_VPN"] ∧
      (validateCreateTransaction pngMissingOptions = none ↔
        (pngMissingOptions.paymentCode = "ACD" →
          hasValue pngMissingOptions.paymentOptions.accountType = true ∧
            hasValue pngMissingOptions.paymentOptions.account = true) ∧
          (pngMissingOptions.paymentCode = "PNG" →
            hasValue pngMissingOptions.paymentOptions.paygoId = true) ∧
          (pngMissingOptions.paymentCode = "WIG_VPN" →
            hasValue pngMissingOptions.paymentOptions.wingAccount = true ∧
              hasValue pngMissingOptions.paymentOptions.wingSecurityCode = true)) :=
  ⟨by decide, by decide, by decide,
    claim_C7_conditional_requirements.1 pngMissingOptions (by decide) (by decide) (by decide)⟩

/-! ## Injectivity of the decimal string representation

Needed to relate a change in `totalQuantity` to a change in the
concatenated signature data. -/

theorem digitChar_inj_lt10 :
    ∀ d1 ∈ List.range 10, ∀ d2 ∈ List.range 10,
      Nat.digitChar d1 = Nat.digitChar d2 → d1 = d2 := by decide

theorem digitChar_code :
    ∀ d ∈ List.range 10, 48 ≤ (Nat.digitChar d).toNat ∧ (Nat.digitChar d).toNat ≤ 57 := by
  decide

theorem map_digitChar_inj :
    ∀ l1 l2 : List Nat, (∀ d ∈ l1, d < 10) → (∀ d ∈ l2, d < 10) →
      l1.map Nat.digitChar = l2.map Nat.digitChar → l1 = l2 := by
  intro l1
  induction l1 with
  | nil =>
    intro l2 _ _ h
    cases l2 with
    | nil => rfl
    | cons b t => simp at h
  | cons a t ih =>
    intro l2 h1 h2 h
    cases l2 with
    | nil => simp at h
    | cons b t2 =>
      simp only [List.map_cons, List.cons.injEq] at h
      have ha : a ∈ List.range 10 := List.mem_range.mpr (h1 a (List.mem_cons_self a t))
      have hb : b ∈ List.range 10 := List.mem_range.mpr (h2 b (List.mem_cons_self b t2))
      have hab : a = b := digitChar_inj_lt10 a ha b hb h.1
      have ht : t = t2 :=
        ih t2 (fun d hd => h1 d (List.mem_cons_of_mem a hd))
          (fun d hd => h2 d (List.mem_cons_of_mem b hd)) h.2
      rw [hab, ht]

theorem toDigitsCore_eq :
    ∀ (fuel n : Nat) (ds : List Char), n < fuel → n ≠ 0 →
      Nat.toDigitsCore 10 fuel n ds =
        ((Nat.digits 10 n).reverse.map Nat.digitChar) ++ ds := by
  intro fuel
  induction fuel with
  | zero => intro n ds h; omega
  | succ fuel ih =>
    intro n ds h hn
    unfold Nat.toDigitsCore
    by_cases h10 : n / 10 = 0
    · have hlt : n < 10 := by omega
      simp only [h10, if_true]
      rw [Nat.digits_of_lt 10 n hn hlt]
      simp [Nat.mod_eq_of_lt hlt]
    · simp only [h10, if_false]
      have hdiv_lt : n / 10 < fuel := by
        have : n / 10 < n := Nat.div_lt_self (Nat.pos_of_ne_zero hn) (by norm_num)
        omega
      rw [ih (n / 10) (Nat.digitChar (n % 10) :: ds) hdiv_lt h10]
      rw [Nat.digits_def' (by norm_num : (1:Nat) < 10) (Nat.pos_of_ne_zero hn)]
      simp [List.append_assoc]

theorem natRepr_eq (n : Nat) (hn : n ≠ 0) :
    Nat.repr n = String.mk ((Nat.digits 10 n).reverse.map Nat.digitChar) := by
  unfold Nat.repr Nat.toDigits
  rw [toDigitsCore_eq (n + 1) n [] (Nat.lt_succ_self n) hn]
  simp [List.asString]

theorem natRepr_injective : ∀ n1 n2 : Nat, Nat.repr n1 = Nat.repr n2 → n1 = n2 := by
  have hdig : ∀ n : Nat, n ≠ 0 → ∀ d ∈ (Nat.digits 10 n).reverse, d < 10 := by
    intro n _ d hd
    exact Nat.digits_lt_base (by norm_num) (List.mem_reverse.mp hd)
  intro n1 n2 h
  by_cases h1 : n1 = 0 <;> by_cases h2 : n2 = 0
  · rw [h1, h2]
  · exfalso
    rw [h1, natRepr_eq n2 h2] at h
    have hd : ['0'] = (Nat.digits 10 n2).reverse.map Nat.digitChar := congrArg String.data h
    have : (Nat.digits 10 n2).reverse = [0] := by
      refine map_digitChar_inj _ [0] (hdig n2 h2) (by decide) ?_
      exact hd.symm
    have hlast := Nat.getLast_digit_ne_zero 10 h2
    have hdig2 : Nat.digits 10 n2 = [0] := by
      have := congrArg List.reverse this
      simpa using this
    rw [List.getLast_congr _ _ hdig2] at hlast
    · simp at hlast
    · simp
  · exfalso
    rw [h2, natRepr_eq n1 h1] at h
    have hd : (Nat.digits 10 n1).reverse.map Nat.digitChar = ['0'] := congrArg String.data h
    have : (Nat.digits 10 n1).reverse = [0] := by
      refine map_digitChar_inj _ [0] (hdig n1 h1) (by decide) ?_
      exact hd
    have hlast := Nat.getLast_digit_ne_zero 10 h1
    have hdig2 : Nat.digits 10 n1 = [0] := by
      have := congrArg List.reverse this
      simpa using this
    rw [List.getLast_congr _ _ hdig2] at hlast
    · simp at hlast
    · simp
  · rw [natRepr_eq n1 h1, natRepr_eq n2 h2] at h
    have hd : (Nat.digits 10 n1).reverse.map Nat.digitChar =
        (Nat.digits 10 n2).reverse.map Nat.digitChar := congrArg String.data h
    have hrev := map_digitChar_inj _ _ (hdig n1 h1) (hdig n2 h2) hd
    have : Nat.digits 10 n1 = Nat.digits 10 n2 := by
      have := congrArg List.reverse hrev
      simpa using this
    exact Nat.digits_inj_iff.mp this

theorem natRepr_head_digit (n : Nat) :
    ∃ c cs, (Nat.repr n).data = c :: cs ∧ 48 ≤ c.toNat ∧ c.toNat ≤ 57 := by
  by_cases hn : n = 0
  · exact ⟨'0', [], by rw [hn]; exact ⟨rfl, by decide, by decide⟩⟩
  · rw [natRepr_eq n hn]
    have hne : (Nat.digits 10 n).reverse ≠ [] := by
      simp [Nat.digits_ne_nil_iff_ne_zero.mpr hn]
    rcases hrev : (Nat.digits 10 n).reverse with _ | ⟨d, rest⟩
    · exact absurd hrev hne
    · have hdmem : d ∈ Nat.digits 10 n :=
        List.mem_reverse.mp (hrev ▸ List.mem_cons_self d rest)
      have hd10 : d ∈ List.range 10 :=
        List.mem_range.mpr (Nat.digits_lt_base (by norm_num) hdmem)
      exact ⟨Nat.digitChar d, rest.map Nat.digitChar, rfl,
        (digitChar_code d hd10).1, (digitChar_code d hd10).2⟩

theorem intToString_injective : ∀ q1 q2 : Int, toString q1 = toString q2 → q1 = q2 := by
  have hmix : ∀ (m k : Nat), Nat.repr m ≠ "-" ++ Nat.repr (k + 1) := by
    intro m k h
    obtain ⟨c, cs, hdata, hc1, _⟩ := natRepr_head_digit m
    have hd : (Nat.repr m).data = '-' :: (Nat.repr (k + 1)).data := by
      rw [h, String.data_append]
      rfl
    rw [hdata] at hd
    have : c = '-' := (List.cons.injEq _ _ _ _ ▸ hd).1
    rw [this] at hc1
    exact absurd hc1 (by decide)
  intro q1 q2 h
  have htn : ∀ m : Nat, toString (Int.ofNat m) = Nat.repr m := fun _ => rfl
  have hts : ∀ m : Nat, toString (Int.negSucc m) = "-" ++ Nat.repr (m + 1) := fun _ => rfl
  cases q1 with
  | ofNat m1 =>
    cases q2 with
    | ofNat m2 =>
      rw [htn m1, htn m2] at h
      have := natRepr_injective m1 m2 h
      rw [this]
    | negSucc m2 =>
      rw [htn m1, hts m2] at h
      exact absurd h (hmix m1 m2)
  | negSucc m1 =>
    cases q2 with
    | ofNat m2 =>
      rw [htn m2, hts m1] at h
      exact absurd h.symm (hmix m2 m1)
    | negSucc m2 =>
      have hts : ∀ m : Nat, toString (Int.negSucc m) = "-" ++ Nat.repr (m + 1) := fun _ => rfl
      rw [hts m1, hts m2] at h
      have hdata : ('-' :: (Nat.repr (m1 + 1)).data) = ('-' :: (Nat.repr (m2 + 1)).data) := by
        have := congrArg String.data h
        simpa [String.data_append] using this
      have hr : Nat.repr (m1 + 1) = Nat.repr (m2 + 1) :=
        String.ext (List.cons.injEq _ _ _ _ ▸ hdata).2
      have hm : m1 + 1 = m2 + 1 := natRepr_injective _ _ hr
      have : m1 = m2 := by omega
      rw [this]

/-! ## The birthday bound on the 160-bit digest -/

theorem sha1Nat_lt (msg : List Nat) : sha1Nat msg < 2 ^ 160 := by
  have hw : ∀ x : Nat, w32 x < 2 ^ 32 := fun x => Nat.mod_lt _ (by norm_num)
  show w32 ((chunks64 (padMsg msg)).foldl sha1Block sha1Init).h0 * 2 ^ 128 +
      w32 ((chunks64 (padMsg msg)).foldl sha1Block sha1Init).h1 * 2 ^ 96 +
      w32 ((chunks64 (padMsg msg)).foldl sha1Block sha1Init).h2 * 2 ^ 64 +
      w32 ((chunks64 (padMsg msg)).foldl sha1Block sha1Init).h3 * 2 ^ 32 +
      w32 ((chunks64 (padMsg msg)).foldl sha1Block sha1Init).h4 < 2 ^ 160
  have h0 := hw ((chunks64 (padMsg msg)).foldl sha1Block sha1Init).h0
  have h1 := hw ((chunks64 (padMsg msg)).foldl sha1Block sha1Init).h1
  have h2 := hw ((chunks64 (padMsg msg)).foldl sha1Block sha1Init).h2
  have h3 := hw ((chunks64 (padMsg msg)).foldl sha1Block sha1Init).h3
  have h4 := hw ((chunks64 (padMsg msg)).foldl sha1Block sha1Init).h4
  omega

theorem encodeBits_ne_empty (k n : Nat) (hk : k ≠ 0) : encodeBits k n ≠ "" := by
  intro h
  have h2 : (encodeBits k n).data.length = ("" : String).data.length :=
    congrArg (fun s => s.data.length) h
  have h3 : k = 0 := by simpa [encodeBits] using h2
  exact hk h3

theorem encodeBits_inj {k : Nat} (n1 n2 : Nat) (h1 : n1 < 2 ^ k) (h2 : n2 < 2 ^ k)
    (h : encodeBits k n1 = encodeBits k n2) : n1 = n2 := by
  apply Nat.eq_of_testBit_eq
  intro i
  by_cases hi : i < k
  · have hdata : (List.range k).map (fun j => if n1.testBit j then 'b' else 'a') =
        (List.range k).map (fun j => if n2.testBit j then 'b' else 'a') :=
      congrArg String.data h
    have e1 : ((List.range k).map (fun j => if n1.testBit j then 'b' else 'a'))[i]? =
        ((List.range k).map (fun j => if n2.testBit j then 'b' else 'a'))[i]? := by
      rw [hdata]
    rw [List.getElem?_map, List.getElem?_map, List.getElem?_range hi] at e1
    have e2 : (if n1.testBit i then 'b' else 'a') = (if n2.testBit i then 'b' else 'a') := by
      simpa using e1
    cases ht1 : n1.testBit i <;> cases ht2 : n2.testBit i <;> rw [ht1, ht2] at e2 <;> simp_all
  · have hk : k ≤ i := le_of_not_lt hi
    have b1 : n1.testBit i = false :=
      Nat.testBit_eq_false_of_lt (lt_of_lt_of_le h1 (Nat.pow_le_pow_right (by norm_num) hk))
    have b2 : n2.testBit i = false :=
      Nat.testBit_eq_false_of_lt (lt_of_lt_of_le h2 (Nat.pow_le_pow_right (by norm_num) hk))
    rw [b1, b2]

theorem validate_collision_options (u : String) (hu : u ≠ "") :
    validateCreateTransaction
      ⟨u, "1.00", 1, "ABA", ⟨none, none, none, none, none⟩,
        none, none, none, none, none, none⟩ = none :=
  (validateCreate_characterization
      ⟨u, "1.00", 1, "ABA", ⟨none, none, none, none, none⟩,
        none, none, none, none, none, none⟩ hu
      (show moneyTest ("1.00" : String).data = true by decide)
      (show ("ABA" : String) ∈ ["ABA", "ACD", "PNG", "WIG", "WIG_VPN"] by decide)).mpr
    (show (("ABA" : String) = "ACD" →
          hasValue (none : Option String) = true ∧ hasValue (none : Option String) = true) ∧
        (("ABA" : String) = "PNG" → hasValue (none : Option String) = true) ∧
        (("ABA" : String) = "WIG_VPN" →
          hasValue (none : Option String) = true ∧ hasValue (none : Option String) = true)
      by decide)

/-- C4 counterexample (negation of the one-field-change half of the
claim): by cardinality, among the more than 2 ^ 160 valid options that
differ only in UID, two distinct ones share the 160-bit digest, hence
the computed signature; SHA-1 cannot be injective. -/
theorem claim_C4_counterexample :
    ∃ o1 o2 : CreateTransactionOptions,
      validateCreateTransaction o1 = none ∧ validateCreateTransaction o2 = none ∧
      o1.UID ≠ o2.UID ∧ o1.totalAmount = o2.totalAmount ∧
      o1.totalQuantity = o2.totalQuantity ∧ o1.ip = o2.ip ∧
      makeSignature o1.UID o1.totalAmount o1.totalQuantity (jsOr o1.ip "Unknown IP")
          "cid" "cs" =
        makeSignature o2.UID o2.totalAmount o2.totalQuantity (jsOr o2.ip "Unknown IP")
          "cid" "cs" := by
  have hcard : Fintype.card (Fin (2 ^ 160)) < Fintype.card (Fin (2 ^ 161)) := by
    simp only [Fintype.card_fin]
    exact Nat.pow_lt_pow_right (by norm_num) (by norm_num)
  obtain ⟨n1, n2, hne, heq⟩ :=
    Fintype.exists_ne_map_eq_of_card_lt
      (fun n : Fin (2 ^ 161) =>
        (⟨sha1Nat (utf8Bytes
            (sigData (encodeBits 161 n.val) "1.00" 1 "Unknown IP" "cid" "cs")),
          sha1Nat_lt _⟩ : Fin (2 ^ 160))) hcard
  have hval : sha1Nat (utf8Bytes
        (sigData (encodeBits 161 n1.val) "1.00" 1 "Unknown IP" "cid" "cs")) =
      sha1Nat (utf8Bytes
        (sigData (encodeBits 161 n2.val) "1.00" 1 "Unknown IP" "cid" "cs")) :=
    congrArg Fin.val heq
  have hUne : encodeBits 161 n1.val ≠ encodeBits 161 n2.val := by
    intro hh
    exact hne (Fin.ext (encodeBits_inj n1.val n2.val n1.isLt n2.isLt hh))
  refine ⟨⟨encodeBits 161 n1.val, "1.00", 1, "ABA", ⟨none, none, none, none, none⟩,
      none, none, none, none, none, none⟩,
    ⟨encodeBits 161 n2.val, "1.00", 1, "ABA", ⟨none, none, none, none, none⟩,
      none, none, none, none, none, none⟩,
    validate_collision_options _ (encodeBits_ne_empty 161 n1.val (by norm_num)),
    validate_collision_options _ (encodeBits_ne_empty 161 n2.val (by norm_num)),
    hUne, rfl, rfl, rfl, ?_⟩
  show makeSignature (encodeBits 161 n1.val) "1.00" 1 (jsOr none "Unknown IP") "cid" "cs" =
    makeSignature (encodeBits 161 n2.val) "1.00" 1 (jsOr none "Unknown IP") "cid" "cs"
  show digest (sigData (encodeBits 161 n1.val) "1.00" 1 "Unknown IP" "cid" "cs") =
    digest (sigData (encodeBits 161 n2.val) "1.00" 1 "Unknown IP" "cid" "cs")
  exact congrArg (fun v => base64Encode (bytesOfNat160 v)) hval

/-- C4 (amended): the signature is a pure function of the six inputs --
equal tuples give equal signatures -- and changing exactly one of UID,
totalAmount, totalQuantity or ip changes the concatenated data string
fed to the hash (the fixed-order concatenation is injective in each
field separately); distinctness of the SHA-1 digests themselves is not
guaranteed. -/
theorem claim_C4_signature_function :
    (∀ (u a : String) (q : Int) (i c s u' a' : String) (q' : Int) (i' : String),
        u = u' → a = a' → q = q' → i = i' →
        makeSignature u a q i c s = makeSignature u' a' q' i' c s) ∧
      (∀ (u u' a : String) (q : Int) (i c s : String), u ≠ u' →
        sigData u a q i c s ≠ sigData u' a q i c s) ∧
      (∀ (u a a' : String) (q : Int) (i c s : String), a ≠ a' →
        sigData u a q i c s ≠ sigData u a' q i c s) ∧
      (∀ (u a : String) (q q' : Int) (i c s : String), q ≠ q' →
        sigData u a q i c s ≠ sigData u a q' i c s) ∧
      (∀ (u a : String) (q : Int) (i i' c s : String), i ≠ i' →
        sigData u a q i c s ≠ sigData u a q i' c s) := by
  refine ⟨?_, ?_, ?_, ?_, ?_⟩
  · rintro u a q i c s u' a' q' i' rfl rfl rfl rfl
    rfl
  · intro u u' a q i c s hne h
    apply hne
    have hd := congrArg String.data h
    simp only [sigData, String.data_append, List.append_assoc] at hd
    exact String.ext ((List.append_left_inj _).mp hd)
  · intro u a a' q i c s hne h
    apply hne
    have hd := congrArg String.data h
    simp only [sigData, String.data_append, List.append_assoc] at hd
    have hd2 := (List.append_right_inj _).mp hd
    exact String.ext ((List.append_left_inj _).mp hd2)
  · intro u a q q' i c s hne h
    apply hne
    have hd := congrArg String.data h
    simp only [sigData, String.data_append, List.append_assoc] at hd
    have hd2 := (List.append_right_inj _).mp hd
    have hd3 := (List.append_right_inj _).mp hd2
    exact intToString_injective q q' (String.ext ((List.append_left_inj _).mp hd3))
  · intro u a q i i' c s hne h
    apply hne
    have hd := congrArg String.data h
    simp only [sigData, String.data_append, List.append_assoc] at hd
    have hd2 := (List.append_right_inj _).mp hd
    have hd3 := (List.append_right_inj _).mp hd2
    have hd4 := (List.append_right_inj _).mp hd3
    exact String.ext ((List.append_left_inj _).mp hd4)

theorem claim_C4_witness :
    ("A" : String) ≠ "B" ∧
      sigData "A" "1.00" 1 "ip" "cid" "cs" ≠ sigData "B" "1.00" 1 "ip" "cid" "cs" ∧
      (2 : Int) ≠ 3 ∧
      sigData "U" "1.00" 2 "ip" "cid" "cs" ≠ sigData "U" "1.00" 3 "ip" "cid" "cs" ∧
      makeSignature "A" "1.00" 1 "ip" "cid" "cs" = makeSignature "A" "1.00" 1 "ip" "cid" "cs" :=
  ⟨by decide, claim_C4_signature_function.2.1 "A" "B" "1.00" 1 "ip" "cid" "cs" (by decide),
    by decide, claim_C4_signature_function.2.2.2.1 "U" "1.00" 2 3 "ip" "cid" "cs" (by decide),
    claim_C4_signature_function.1 "A" "1.00" 1 "ip" "cid" "cs" "A" "1.00" 1 "ip"
      rfl rfl rfl rfl⟩
